import Mathlib

/-
  Shallow embedding of spirilis/msprtckit (src/rtckit.c, src/rtckit.h).

  The MCU's `unsigned long` is 32 bits wide; we model it as Nat together with
  an explicit reduction modulo 2^32 wherever the C arithmetic can wrap.
  `struct tm` fields are C ints holding non-negative calendar data; we model
  them as Nat (the library validates `tm_year < 1973` up front and the data
  model of the calendar uses only non-negative field values).

  Each C while-loop is embedded as a structurally recursive function over an
  explicit fuel argument; the call sites supply a fuel that provably dominates
  the number of iterations the C loop performs, and closed-form lemmas below
  show the fuel is irrelevant beyond that bound.
-/

namespace Rtckit

/-- Modulus of the MCU's 32-bit unsigned long arithmetic. -/
def U32 : Nat := 4294967296

/-- Reduce a value the way C unsigned long arithmetic does. -/
def w32 (n : Nat) : Nat := n % U32

/-- C unsigned-long subtraction `a - b` modulo 2^32. -/
def sub32 (a b : Nat) : Nat := (a % U32 + (U32 - b % U32)) % U32

/-- rtckit.h: TOTAL_SECONDS_PER_LEAP_CYCLE, ((86400*365)*3 + (86400*366)). -/
def TOTAL_SECONDS_PER_LEAP_CYCLE : Nat := (86400 * 365) * 3 + (86400 * 366)

/-- rtckit.h: EPOCH_AFTER_FIRST_LEAPYEAR, ((86400*365)*2 + (86400*366)).
    This is the epoch of 1973-01-01T00:00:00Z, the minimum supported date. -/
def EPOCH_AFTER_FIRST_LEAPYEAR : Nat := (86400 * 365) * 2 + (86400 * 366)

/-- The `days` field of `monthInfo[m]` (non-leap month lengths, January = 0).
    The C array has 12 entries; indices beyond 11 are never read on any
    reachable path (proved below), so the catch-all is arbitrary. -/
def monthInfo_days : Nat → Nat
  | 0 => 31
  | 1 => 28
  | 2 => 31
  | 3 => 30
  | 4 => 31
  | 5 => 30
  | 6 => 31
  | 7 => 31
  | 8 => 30
  | 9 => 31
  | 10 => 30
  | _ => 31

/-- C `struct tm`, restricted to the fields rtckit reads and writes. -/
structure tm where
  tm_sec : Nat
  tm_min : Nat
  tm_hour : Nat
  tm_mday : Nat
  tm_mon : Nat
  tm_year : Nat
  tm_wday : Nat
  tm_yday : Nat
deriving DecidableEq, Repr

/-- rtckit.c: struct tm_leapyear. -/
structure tm_leapyear where
  startOfCycle : Nat
  remains : Nat
  years : Nat
deriving DecidableEq, Repr

/-- The while-loop of rtc_calculate_last_leapyear:
    `while (epoch >= TOTAL_SECONDS_PER_LEAP_CYCLE) { epoch -= ...; accum += ...; years += 4; }`.
    Fuel-indexed; any fuel ≥ epoch / TOTAL_SECONDS_PER_LEAP_CYCLE is enough. -/
def leapyearLoop : Nat → Nat → Nat → Nat → Nat × Nat × Nat
  | 0, epoch, accum, years => (epoch, accum, years)
  | fuel + 1, epoch, accum, years =>
    if TOTAL_SECONDS_PER_LEAP_CYCLE ≤ epoch then
      leapyearLoop fuel (epoch - TOTAL_SECONDS_PER_LEAP_CYCLE)
        (accum + TOTAL_SECONDS_PER_LEAP_CYCLE) (years + 4)
    else (epoch, accum, years)

/-- rtc_calculate_last_leapyear.  The C function returns `accum` (0 meaning
    "unsupported", in which case the output buffer is never written) and
    otherwise fills the buffer; on the success path `accum ≥ 94694400 > 0`,
    so returning the filled buffer as an Option is a faithful model. -/
def rtc_calculate_last_leapyear (epoch : Nat) : Option tm_leapyear :=
  if epoch < EPOCH_AFTER_FIRST_LEAPYEAR then
    none  -- C returns 0: not supporting dates before 1973
  else
    let e := epoch - EPOCH_AFTER_FIRST_LEAPYEAR
    let r := leapyearLoop (e / TOTAL_SECONDS_PER_LEAP_CYCLE + 1) e
      EPOCH_AFTER_FIRST_LEAPYEAR 3
    some ⟨r.2.1, r.1, r.2.2⟩

/-- The month walk in rtc_interpret:
    `while (i > -1) { if (tm_mon == 1) {i -= days_february; j += days_february; tm_mon++;}
                      else {i -= monthInfo[tm_mon].days; j += monthInfo[tm_mon++].days;} }`.
    `i` and `j` are C `long` variables, modelled as Int.  Fuel 13 dominates the
    loop (it consumes at least 28 days per iteration from an `i` of at most 365). -/
def monthLoop : Nat → Nat → Int → Int → Nat → Nat × Int
  | 0, _, _, j, mon => (mon, j)
  | fuel + 1, feb, i, j, mon =>
    if i > -1 then
      if mon = 1 then
        monthLoop fuel feb (i - (feb : Int)) (j + (feb : Int)) (mon + 1)
      else
        monthLoop fuel feb (i - (monthInfo_days mon : Int)) (j + (monthInfo_days mon : Int)) (mon + 1)
    else (mon, j)

/-
  The locals of rtc_interpret, one named definition per local variable of the
  source (the source's single mutable `remains_years` is split into its value
  before the fixup, interp_remains_years0, and after, interp_remains_years).
-/

/-- rtc_interpret local: `remains_years = leaps.remains / (365*86400)`. -/
def interp_remains_years0 (leaps : tm_leapyear) : Nat := leaps.remains / (365 * 86400)

/-- rtc_interpret local: days_february (29 in a leap year, else 28). -/
def interp_days_february (leaps : tm_leapyear) : Nat :=
  if 2 < interp_remains_years0 leaps then 29 else 28

/-- rtc_interpret local: days_this_year (366 in a leap year, else 365). -/
def interp_days_this_year (leaps : tm_leapyear) : Nat :=
  if 2 < interp_remains_years0 leaps then 366 else 365

/-- rtc_interpret local: remains_years after the
    `if (remains_years > 3) remains_years--` fixup (last day of a leap year). -/
def interp_remains_years (leaps : tm_leapyear) : Nat :=
  if 3 < interp_remains_years0 leaps then interp_remains_years0 leaps - 1
  else interp_remains_years0 leaps

/-- rtc_interpret field: `tm_year = leaps.years + remains_years + 1970`. -/
def interp_tm_year (leaps : tm_leapyear) : Nat :=
  leaps.years + interp_remains_years leaps + 1970

/-- rtc_interpret local: remains_this_year.  The C expression
    `leaps.remains - ((remains_years-1)*86400*365) - (86400*days_this_year)`
    underflows (mod 2^32) when `remains_years == 0`; the sub32/w32 chain
    reproduces that wrap. -/
def interp_remains_this_year (leaps : tm_leapyear) : Nat :=
  if interp_days_this_year leaps = 366 then
    leaps.remains - interp_remains_years leaps * 86400 * 365
  else
    sub32 (sub32 leaps.remains (w32 (w32 (sub32 (interp_remains_years leaps) 1 * 86400) * 365)))
      (86400 * interp_days_this_year leaps)

/-- rtc_interpret field: `tm_yday = remains_this_year / 86400`. -/
def interp_tm_yday (leaps : tm_leapyear) : Nat := interp_remains_this_year leaps / 86400

/-- rtc_interpret: final (tm_mon+1, j) of the month walk loop. -/
def interp_walk (leaps : tm_leapyear) : Nat × Int :=
  monthLoop 13 (interp_days_february leaps) (interp_tm_yday leaps : Int) 0 0

/-- rtc_interpret field: tm_mon after the post-loop `tm_mon--`. -/
def interp_tm_mon (leaps : tm_leapyear) : Nat := (interp_walk leaps).1 - 1

/-- rtc_interpret local: `j` after the post-loop correction
    `j -= (tm_mon == 1 ? days_february : monthInfo[tm_mon].days)`. -/
def interp_j (leaps : tm_leapyear) : Int :=
  (interp_walk leaps).2 -
    (if interp_tm_mon leaps = 1 then (interp_days_february leaps : Int)
     else (monthInfo_days (interp_tm_mon leaps) : Int))

/-- rtc_interpret field:
    `tm_mday = (remains_this_year - (j*86400)) / 86400 + 1`.
    `j` is non-negative on every supported epoch (proved below), so
    `Int.toNat` agrees with the C long→unsigned-long conversion there. -/
def interp_tm_mday (leaps : tm_leapyear) : Nat :=
  (interp_remains_this_year leaps - (interp_j leaps).toNat * 86400) / 86400 + 1

/-- rtc_interpret local: `i = remains_this_year - tm_yday*86400`, the number
    of seconds elapsed today. -/
def interp_secs_today (leaps : tm_leapyear) : Nat :=
  interp_remains_this_year leaps - interp_tm_yday leaps * 86400

/-- rtc_interpret field: `tm_hour = i / 3600`. -/
def interp_tm_hour (leaps : tm_leapyear) : Nat := interp_secs_today leaps / 3600

/-- rtc_interpret field: `tm_min = (i % 3600) / 60`. -/
def interp_tm_min (leaps : tm_leapyear) : Nat := interp_secs_today leaps % 3600 / 60

/-- rtc_interpret field: `tm_sec = (i % 3600) % 60`. -/
def interp_tm_sec (leaps : tm_leapyear) : Nat := interp_secs_today leaps % 3600 % 60

/-- rtc_interpret field:
    `tm_wday = (((epoch/86400) - (weeks_since_epoch*7)) + 4) % 7`. -/
def interp_tm_wday (epoch : Nat) : Nat :=
  (epoch / 86400 - epoch / (7 * 86400) * 7 + 4) % 7

/-- rtc_interpret.  Returns `none` exactly when the C function returns NULL
    (the returned accumulator is 0 only on the unsupported-date path). -/
def rtc_interpret (epoch : Nat) : Option tm :=
  match rtc_calculate_last_leapyear epoch with
  | none => none  -- Invalid or unsupported date
  | some leaps =>
    some ⟨interp_tm_sec leaps, interp_tm_min leaps, interp_tm_hour leaps,
      interp_tm_mday leaps, interp_tm_mon leaps, interp_tm_year leaps,
      interp_tm_wday epoch, interp_tm_yday leaps⟩

/-- The month-summing loop of rtc_calculate_yday:
    `while (month < tm_mon) { if (month == 1 && is_leap) yday += 29; else yday += monthInfo[month].days; month++; }`
    expressed as the sum over months below the bound. -/
def ydaySum (is_leap : Nat) : Nat → Nat
  | 0 => 0
  | m + 1 => ydaySum is_leap m + (if m = 1 ∧ is_leap ≠ 0 then 29 else monthInfo_days m)

/-- rtc_calculate_yday.  `latest_epoch` is a parameter of the C function but is
    never read by its body. -/
def rtc_calculate_yday (timebuf : tm) (latest_epoch : Nat) (is_leap : Nat) : Nat :=
  let yday := ydaySum is_leap timebuf.tm_mon
  if 0 < timebuf.tm_mday then yday + (timebuf.tm_mday - 1) else yday

/-- The first while-loop of rtc_epoch:
    `while ((tm_year - latest_year) >= 4) { epoch += TOTAL_SECONDS_PER_LEAP_CYCLE; latest_year += 4; }`. -/
def epochCycleLoop : Nat → Nat → Nat → Nat → Nat × Nat
  | 0, _, epoch, latest => (epoch, latest)
  | fuel + 1, year, epoch, latest =>
    if 4 ≤ year - latest then
      epochCycleLoop fuel year (w32 (epoch + TOTAL_SECONDS_PER_LEAP_CYCLE)) (latest + 4)
    else (epoch, latest)

/-- The second while-loop of rtc_epoch:
    `while ((tm_year - latest_year) > 0) { epoch += 86400*365; latest_year++; }`. -/
def epochYearLoop : Nat → Nat → Nat → Nat → Nat × Nat
  | 0, _, epoch, latest => (epoch, latest)
  | fuel + 1, year, epoch, latest =>
    if 0 < year - latest then
      epochYearLoop fuel year (w32 (epoch + 86400 * 365)) (latest + 1)
    else (epoch, latest)

/-
  The locals of rtc_epoch, one named definition per local variable of the
  source (epoch/latest_year are mutated across the two while-loops; their
  successive values are repoch_epoch1/repoch_latest_year after the cycle loop
  and repoch_epoch2 after the year loop; the struct pointed to by timebuf is
  repoch_tb1 after the defensive yday clamp and repoch_tb2 after the optional
  yday recomputation).
-/

/-- rtc_epoch after its first while loop; fuel (year-1973)/4 + 1 dominates
    the (year-1973)/4 iterations the loop performs. -/
def repoch_r1 (t : tm) : Nat × Nat :=
  epochCycleLoop ((t.tm_year - 1973) / 4 + 1) t.tm_year EPOCH_AFTER_FIRST_LEAPYEAR 1973

/-- rtc_epoch local `epoch` after the cycle loop. -/
def repoch_epoch1 (t : tm) : Nat := (repoch_r1 t).1

/-- rtc_epoch local `latest_year` after the cycle loop. -/
def repoch_latest_year (t : tm) : Nat := (repoch_r1 t).2

/-- rtc_epoch local: `is_leap = ((tm_year - latest_year) > 2)`. -/
def repoch_is_leap (t : tm) : Nat :=
  if 2 < t.tm_year - repoch_latest_year t then 1 else 0

/-- rtc_epoch local `epoch` after the second (single-year) while loop. -/
def repoch_epoch2 (t : tm) : Nat :=
  (epochYearLoop (t.tm_year - repoch_latest_year t + 1) t.tm_year
    (repoch_epoch1 t) (repoch_latest_year t)).1

/-- The input struct after `if (tm_yday > 366) tm_yday = 0`. -/
def repoch_tb1 (t : tm) : tm :=
  if 366 < t.tm_yday then { t with tm_yday := 0 } else t

/-- The input struct after the optional
    `if (tm_yday == 0 && (tm_mday > 0 || tm_mon > 0)) tm_yday = rtc_calculate_yday(...)`. -/
def repoch_tb2 (t : tm) : tm :=
  if (repoch_tb1 t).tm_yday = 0 ∧ (0 < (repoch_tb1 t).tm_mday ∨ 0 < (repoch_tb1 t).tm_mon) then
    { repoch_tb1 t with
      tm_yday := rtc_calculate_yday (repoch_tb1 t) (repoch_epoch2 t) (repoch_is_leap t) }
  else repoch_tb1 t

/-- rtc_epoch.  The input pointer is modelled as an Option; the C function may
    write the `tm_yday` field of its input, so the (possibly updated) struct is
    returned alongside the epoch value.  A NULL pointer or a year below 1973
    yields 0 with the input untouched. -/
def rtc_epoch : Option tm → Nat × Option tm
  | none => (0, none)
  | some timebuf =>
    if timebuf.tm_year < 1973 then (0, some timebuf)
    else
      let tb2 := repoch_tb2 timebuf
      let e3 := w32 (repoch_epoch2 timebuf + w32 (tb2.tm_yday * 86400))
      let e4 := w32 (e3 + w32 (tb2.tm_hour * 3600))
      let e5 := w32 (e4 + w32 (tb2.tm_min * 60))
      let e6 := w32 (e5 + tb2.tm_sec)
      (e6, some tb2)

/-- rtckit.h: RTC_TICK (0x0001). -/
def RTC_TICK : Nat := 1

/-- rtckit.h: RTCALARM_0_TRIGGERED (0x0002). -/
def RTCALARM_0_TRIGGERED : Nat := 2

/-- rtckit.h: RTCALARM_1_TRIGGERED (0x0004). -/
def RTCALARM_1_TRIGGERED : Nat := 4

/-- rtckit.h: RTC_TICK_DOES_WAKEUP (0x0100). -/
def RTC_TICK_DOES_WAKEUP : Nat := 256

/-- rtckit.h: RTC_GENERAL_ERROR (0x8000). -/
def RTC_GENERAL_ERROR : Nat := 32768

/-- The module-level state the tick handler owns: rtc_status, rtcepoch,
    rtcalarm0, rtcalarm0_incr, rtcalarm1, rtcalarm1_incr. -/
structure RtcState where
  rtc_status : Nat
  rtcepoch : Nat
  rtcalarm0 : Nat
  rtcalarm0_incr : Nat
  rtcalarm1 : Nat
  rtcalarm1_incr : Nat
deriving DecidableEq, Repr

/-- One execution of RTC_ISR in which `RTCIV & RTCIV_RTCIF` holds (the
    once-per-second tick).  The returned Bool records whether the handler
    executes `__bic_SR_register_on_exit(LPM4_bits)` (waking the CPU): the
    source runs it unconditionally inside the tick branch, with no test of
    RTC_TICK_DOES_WAKEUP anywhere. -/
def RTC_ISR_tick (s : RtcState) : RtcState × Bool :=
  let status1 := s.rtc_status ||| RTC_TICK
  let epoch1 := w32 (s.rtcepoch + 1)
  let fire0 := 0 < s.rtcalarm0 ∧ epoch1 = s.rtcalarm0
  let status2 := if fire0 then status1 ||| RTCALARM_0_TRIGGERED else status1
  let alarm0 := if fire0 ∧ 0 < s.rtcalarm0_incr then w32 (s.rtcalarm0 + s.rtcalarm0_incr)
    else s.rtcalarm0
  let fire1 := 0 < s.rtcalarm1 ∧ epoch1 = s.rtcalarm1
  let status3 := if fire1 then status2 ||| RTCALARM_1_TRIGGERED else status2
  let alarm1 := if fire1 ∧ 0 < s.rtcalarm1_incr then w32 (s.rtcalarm1 + s.rtcalarm1_incr)
    else s.rtcalarm1
  (⟨status3, epoch1, alarm0, s.rtcalarm0_incr, alarm1, s.rtcalarm1_incr⟩, true)

/-- The condition under which the next tick triggers alarm 0, exactly the
    guard `rtcalarm0 > 0 && rtcepoch == rtcalarm0` evaluated by the ISR after
    its increment of rtcepoch. -/
def rtc_alarm0_fires (s : RtcState) : Prop :=
  0 < s.rtcalarm0 ∧ w32 (s.rtcepoch + 1) = s.rtcalarm0

instance (s : RtcState) : Decidable (rtc_alarm0_fires s) := by
  unfold rtc_alarm0_fires; infer_instance

/-- n successive tick interrupts. -/
def rtc_ticks : Nat → RtcState → RtcState
  | 0, s => s
  | n + 1, s => rtc_ticks n (RTC_ISR_tick s).1

/-- Cumulative days in the months strictly before month m (0-indexed),
    the reference month-length table the field invariants are stated against. -/
def daysInMonth (leap : Bool) (m : Nat) : Nat :=
  if m = 1 ∧ leap then 29 else monthInfo_days m

/-- Days in the year strictly before the first day of month m. -/
def daysBefore (leap : Bool) : Nat → Nat
  | 0 => 0
  | m + 1 => daysBefore leap m + daysInMonth leap m

/-
  Intermediate values of rtc_interpret as closed formulas of the epoch,
  used to state its characterization.
-/

/-- Seconds past the minimum supported date. -/
def iDelta (e : Nat) : Nat := e - 94694400

/-- Whole 4-year leap cycles consumed by the while-loop of
    rtc_calculate_last_leapyear. -/
def iCycles (e : Nat) : Nat := iDelta e / 126230400

/-- leaps.remains: seconds into the current 4-year cycle. -/
def iRem (e : Nat) : Nat := iDelta e % 126230400

/-- The tm_leapyear rtc_calculate_last_leapyear produces for a supported
    epoch (its loop's closed form). -/
def interp_leaps (e : Nat) : tm_leapyear :=
  ⟨94694400 + iCycles e * 126230400, iRem e, 3 + 4 * iCycles e⟩

/-- The tm_yday value rtc_epoch leaves in its input (for year ≥ 1973):
    unchanged when 1 ≤ tm_yday ≤ 366, otherwise zeroed and, when month or
    day is set, recomputed by rtc_calculate_yday. -/
def eYdayOut (t : tm) : Nat :=
  if 366 < t.tm_yday ∨ t.tm_yday = 0 then
    (if 0 < t.tm_mday ∨ 0 < t.tm_mon then
      rtc_calculate_yday t 0 (if 2 < (t.tm_year - 1973) % 4 then 1 else 0)
    else 0)
  else t.tm_yday

/-
  Closed forms of the embedded loops.
-/

theorem TOTAL_eq : TOTAL_SECONDS_PER_LEAP_CYCLE = 126230400 := rfl

theorem EPOCH_eq : EPOCH_AFTER_FIRST_LEAPYEAR = 94694400 := rfl

theorem U32_eq : U32 = 4294967296 := rfl

theorem leapyearLoop_eq : ∀ fuel e a y : Nat, e / 126230400 ≤ fuel →
    leapyearLoop fuel e a y =
      (e % 126230400, a + e / 126230400 * 126230400, y + 4 * (e / 126230400)) := by
  intro fuel
  induction fuel with
  | zero =>
    intro e a y h
    show (e, a, y) = _
    have h1 : e / 126230400 = 0 := by omega
    have h2 : e % 126230400 = e := by omega
    simp [h1, h2]
  | succ fuel ih =>
    intro e a y h
    by_cases hc : 126230400 ≤ e
    · rw [leapyearLoop, if_pos (show TOTAL_SECONDS_PER_LEAP_CYCLE ≤ e from hc),
        ih (e - TOTAL_SECONDS_PER_LEAP_CYCLE) _ _ (by rw [TOTAL_eq]; omega)]
      rw [TOTAL_eq]
      refine Prod.ext ?_ (Prod.ext ?_ ?_) <;> simp <;> omega
    · rw [leapyearLoop, if_neg (show ¬ TOTAL_SECONDS_PER_LEAP_CYCLE ≤ e from hc)]
      have h1 : e / 126230400 = 0 := by omega
      have h2 : e % 126230400 = e := by omega
      simp [h1, h2]

theorem rtc_calculate_last_leapyear_eq (e : Nat) (h : 94694400 ≤ e) :
    rtc_calculate_last_leapyear e = some (interp_leaps e) := by
  have hz : rtc_calculate_last_leapyear e =
      some ⟨(leapyearLoop ((e - 94694400) / 126230400 + 1) (e - 94694400) 94694400 3).2.1,
            (leapyearLoop ((e - 94694400) / 126230400 + 1) (e - 94694400) 94694400 3).1,
            (leapyearLoop ((e - 94694400) / 126230400 + 1) (e - 94694400) 94694400 3).2.2⟩ := by
    unfold rtc_calculate_last_leapyear
    rw [if_neg (show ¬ e < EPOCH_AFTER_FIRST_LEAPYEAR by rw [EPOCH_eq]; omega)]
    simp only [EPOCH_eq, TOTAL_eq]
  rw [hz, leapyearLoop_eq _ _ _ _ (Nat.le_succ _)]
  simp only [interp_leaps, iCycles, iRem, iDelta]

/-- The C expression
    `remains - ((remains_years-1)*86400*365) - 86400*365`
    (32-bit unsigned, wrapping when remains_years = 0) equals
    `remains - remains_years*31536000` whenever remains_years ≤ 2 stays within
    range.  This is the only place rtc_interpret relies on unsigned wraparound. -/
theorem remains_sub32_eq (r ry : Nat) (hr : r < 126230400) (hry : ry ≤ 2)
    (hle : ry * 31536000 ≤ r) :
    sub32 (sub32 r (w32 (w32 (sub32 ry 1 * 86400) * 365))) (86400 * 365) =
      r - ry * 31536000 := by
  interval_cases ry <;> unfold sub32 w32 U32 <;> omega

theorem monthLoop_at_zero (feb : Nat) : monthLoop 13 feb 0 0 0 = (1, 31) := rfl

/-- On a supported epoch, rtc_interpret returns the struct assembled from the
    interp_* locals evaluated at the closed-form tm_leapyear. -/
theorem rtc_interpret_eq_some (e : Nat) (h : 94694400 ≤ e) :
    rtc_interpret e = some ⟨interp_tm_sec (interp_leaps e), interp_tm_min (interp_leaps e),
      interp_tm_hour (interp_leaps e), interp_tm_mday (interp_leaps e),
      interp_tm_mon (interp_leaps e), interp_tm_year (interp_leaps e),
      interp_tm_wday e, interp_tm_yday (interp_leaps e)⟩ := by
  simp only [rtc_interpret, rtc_calculate_last_leapyear_eq e h]

theorem interp_leaps_remains (e : Nat) :
    (interp_leaps e).remains = (e - 94694400) % 126230400 := rfl

theorem interp_leaps_years (e : Nat) :
    (interp_leaps e).years = 3 + 4 * ((e - 94694400) / 126230400) := rfl

/-- remains_years0 can only be 0..4 within one leap cycle. -/
theorem interp_remains_years0_le (L : tm_leapyear) (h : L.remains < 126230400) :
    interp_remains_years0 L ≤ 4 := by
  unfold interp_remains_years0
  omega

theorem interp_remains_years_le (L : tm_leapyear) (h : L.remains < 126230400) :
    interp_remains_years L ≤ 3 := by
  have := interp_remains_years0_le L h
  unfold interp_remains_years
  split <;> omega

/-- remains_years is 3 exactly in the leap-year case (remains_years0 > 2). -/
theorem interp_remains_years_leap (L : tm_leapyear) (h : L.remains < 126230400) :
    (2 < interp_remains_years0 L → interp_remains_years L = 3) ∧
    (¬ 2 < interp_remains_years0 L → interp_remains_years L = interp_remains_years0 L) := by
  have := interp_remains_years0_le L h
  unfold interp_remains_years
  constructor <;> intro h2 <;> split <;> omega

/-- The year-splitting arithmetic of rtc_interpret, with the unsigned
    wraparound of the non-leap branch discharged. -/
theorem interp_remains_this_year_eq (L : tm_leapyear) (h : L.remains < 126230400) :
    interp_remains_this_year L = L.remains - interp_remains_years L * 31536000 := by
  have h0 := interp_remains_years0_le L h
  unfold interp_remains_this_year interp_days_this_year
  by_cases h2 : 2 < interp_remains_years0 L
  · rw [if_pos h2, if_pos rfl]
    have h3 : interp_remains_years L = 3 := (interp_remains_years_leap L h).1 h2
    rw [h3]
  · rw [if_neg h2, if_neg (by omega)]
    have h3 : interp_remains_years L = interp_remains_years0 L :=
      (interp_remains_years_leap L h).2 h2
    rw [h3]
    exact remains_sub32_eq L.remains _ h (by omega)
      (by unfold interp_remains_years0 at *; omega)

/-- Bounds on remains_this_year: below a year (non-leap) or a leap year. -/
theorem interp_remains_this_year_lt (L : tm_leapyear) (h : L.remains < 126230400) :
    (2 < interp_remains_years0 L → interp_remains_this_year L < 31622400) ∧
    (¬ 2 < interp_remains_years0 L → interp_remains_this_year L < 31536000) := by
  rw [interp_remains_this_year_eq L h]
  obtain ⟨hl, hnl⟩ := interp_remains_years_leap L h
  constructor <;> intro h2
  · rw [hl h2]
    unfold interp_remains_years0 at h2
    omega
  · rw [hnl h2]
    unfold interp_remains_years0 at *
    omega

/-- tm_yday stays within a year: at most 365 (and 364 in a non-leap year). -/
theorem interp_tm_yday_le (L : tm_leapyear) (h : L.remains < 126230400) :
    interp_tm_yday L ≤ 365 ∧ (¬ 2 < interp_remains_years0 L → interp_tm_yday L ≤ 364) := by
  obtain ⟨hl, hnl⟩ := interp_remains_this_year_lt L h
  unfold interp_tm_yday
  by_cases h2 : 2 < interp_remains_years0 L
  · have := hl h2
    omega
  · have := hnl h2
    omega

/-- The seconds-of-day split: hour/min/sec recombine to seconds-today, which
    is remains_this_year mod 86400. -/
theorem interp_time_of_day (L : tm_leapyear) :
    interp_secs_today L = interp_remains_this_year L % 86400 ∧
    interp_tm_hour L * 3600 + interp_tm_min L * 60 + interp_tm_sec L = interp_secs_today L ∧
    interp_tm_hour L ≤ 23 ∧ interp_tm_min L ≤ 59 ∧ interp_tm_sec L ≤ 59 := by
  simp only [interp_tm_hour, interp_tm_min, interp_tm_sec, interp_secs_today, interp_tm_yday]
  omega

/-- The remains_this_year decomposition into whole days and seconds-today. -/
theorem interp_yday_split (L : tm_leapyear) :
    interp_tm_yday L * 86400 + interp_secs_today L = interp_remains_this_year L := by
  simp only [interp_tm_yday, interp_secs_today]
  omega

theorem interp_tm_wday_eq (epoch : Nat) : interp_tm_wday epoch = (epoch / 86400 + 4) % 7 := by
  unfold interp_tm_wday
  omega

/-- Whether rtc_interpret is in its leap-year case. -/
def interp_leap (L : tm_leapyear) : Bool := decide (2 < interp_remains_years0 L)

set_option maxRecDepth 100000 in
/-- Exhaustive check of the month walk over all non-leap day-of-year values:
    the walk stops at the month containing the day, and the corrected `j` is
    the cumulative day count before that month. -/
theorem monthLoop_char28 : ∀ yd : Nat, yd < 365 →
    1 ≤ (monthLoop 13 28 (yd : Int) 0 0).1 ∧
    (monthLoop 13 28 (yd : Int) 0 0).1 - 1 ≤ 11 ∧
    (monthLoop 13 28 (yd : Int) 0 0).2 -
      (if (monthLoop 13 28 (yd : Int) 0 0).1 - 1 = 1 then ((28 : Nat) : Int)
       else ((monthInfo_days ((monthLoop 13 28 (yd : Int) 0 0).1 - 1)) : Int)) =
      ((daysBefore false ((monthLoop 13 28 (yd : Int) 0 0).1 - 1)) : Int) ∧
    daysBefore false ((monthLoop 13 28 (yd : Int) 0 0).1 - 1) ≤ yd ∧
    yd < daysBefore false ((monthLoop 13 28 (yd : Int) 0 0).1 - 1) +
      daysInMonth false ((monthLoop 13 28 (yd : Int) 0 0).1 - 1) := by decide

set_option maxRecDepth 100000 in
/-- Exhaustive check of the month walk over all leap-year day-of-year values. -/
theorem monthLoop_char29 : ∀ yd : Nat, yd < 366 →
    1 ≤ (monthLoop 13 29 (yd : Int) 0 0).1 ∧
    (monthLoop 13 29 (yd : Int) 0 0).1 - 1 ≤ 11 ∧
    (monthLoop 13 29 (yd : Int) 0 0).2 -
      (if (monthLoop 13 29 (yd : Int) 0 0).1 - 1 = 1 then ((29 : Nat) : Int)
       else ((monthInfo_days ((monthLoop 13 29 (yd : Int) 0 0).1 - 1)) : Int)) =
      ((daysBefore true ((monthLoop 13 29 (yd : Int) 0 0).1 - 1)) : Int) ∧
    daysBefore true ((monthLoop 13 29 (yd : Int) 0 0).1 - 1) ≤ yd ∧
    yd < daysBefore true ((monthLoop 13 29 (yd : Int) 0 0).1 - 1) +
      daysInMonth true ((monthLoop 13 29 (yd : Int) 0 0).1 - 1) := by decide

theorem daysInMonth_le31 : ∀ m : Nat, m ≤ 11 →
    daysInMonth false m ≤ 31 ∧ daysInMonth true m ≤ 31 := by decide

/-- The month/day fields of rtc_interpret locate tm_yday inside the calendar:
    tm_mon is a valid month index, the corrected `j` counts the days before
    it, and tm_yday falls within tm_mon. -/
theorem interp_month_char (L : tm_leapyear) (h : L.remains < 126230400) :
    interp_tm_mon L ≤ 11 ∧
    interp_j L = ((daysBefore (interp_leap L) (interp_tm_mon L)) : Int) ∧
    daysBefore (interp_leap L) (interp_tm_mon L) ≤ interp_tm_yday L ∧
    interp_tm_yday L < daysBefore (interp_leap L) (interp_tm_mon L) +
      daysInMonth (interp_leap L) (interp_tm_mon L) := by
  by_cases h2 : 2 < interp_remains_years0 L
  · have hleap : interp_leap L = true := by simp [interp_leap, h2]
    have hfeb : interp_days_february L = 29 := by rw [interp_days_february, if_pos h2]
    have hyd : interp_tm_yday L < 366 := by
      have := (interp_tm_yday_le L h).1
      omega
    have hc := monthLoop_char29 (interp_tm_yday L) hyd
    simp only [interp_tm_mon, interp_j, interp_walk, hfeb, hleap]
    exact ⟨hc.2.1, hc.2.2.1, hc.2.2.2.1, hc.2.2.2.2⟩
  · have hleap : interp_leap L = false := by simp [interp_leap, h2]
    have hfeb : interp_days_february L = 28 := by rw [interp_days_february, if_neg h2]
    have hyd : interp_tm_yday L < 365 := by
      have := (interp_tm_yday_le L h).2 h2
      omega
    have hc := monthLoop_char28 (interp_tm_yday L) hyd
    simp only [interp_tm_mon, interp_j, interp_walk, hfeb, hleap]
    exact ⟨hc.2.1, hc.2.2.1, hc.2.2.2.1, hc.2.2.2.2⟩

/-- tm_mday is 1-based: day-of-year minus the days before the month, plus 1. -/
theorem interp_tm_mday_eq (L : tm_leapyear) (h : L.remains < 126230400) :
    interp_tm_mday L = interp_tm_yday L - daysBefore (interp_leap L) (interp_tm_mon L) + 1 := by
  have hm := interp_month_char L h
  rw [interp_tm_mday, hm.2.1, Int.toNat_natCast]
  have h1 := hm.2.2.1
  simp only [interp_tm_yday] at *
  omega

/-
  Closed forms for the two while-loops of rtc_epoch.
-/

theorem epochCycleLoop_eq : ∀ fuel year epoch latest : Nat,
    (year - latest) / 4 ≤ fuel → epoch < 4294967296 →
    epochCycleLoop fuel year epoch latest =
      ((epoch + (year - latest) / 4 * 126230400) % 4294967296,
       latest + 4 * ((year - latest) / 4)) := by
  intro fuel
  induction fuel with
  | zero =>
    intro year epoch latest h hU
    show (epoch, latest) = _
    have h1 : (year - latest) / 4 = 0 := by omega
    rw [h1]
    have h2 : (epoch + 0 * 126230400) % 4294967296 = epoch := by omega
    rw [h2]
    simp
  | succ fuel ih =>
    intro year epoch latest h hU
    by_cases hc : 4 ≤ year - latest
    · rw [epochCycleLoop, if_pos hc]
      have hU' : w32 (epoch + TOTAL_SECONDS_PER_LEAP_CYCLE) < 4294967296 := by
        simp only [w32, U32_eq]
        omega
      rw [ih year _ (latest + 4) (by omega) hU']
      simp only [w32, U32_eq, TOTAL_eq]
      refine Prod.ext ?_ ?_ <;> simp <;> omega
    · rw [epochCycleLoop, if_neg hc]
      have h1 : (year - latest) / 4 = 0 := by omega
      rw [h1]
      have h2 : (epoch + 0 * 126230400) % 4294967296 = epoch := by omega
      rw [h2]
      simp

theorem epochYearLoop_eq : ∀ fuel year epoch latest : Nat,
    year - latest ≤ fuel → epoch < 4294967296 →
    epochYearLoop fuel year epoch latest =
      ((epoch + (year - latest) * 31536000) % 4294967296, year ⊔ latest) := by
  intro fuel
  induction fuel with
  | zero =>
    intro year epoch latest h hU
    show (epoch, latest) = _
    have h1 : year - latest = 0 := by omega
    rw [h1]
    have h2 : (epoch + 0 * 31536000) % 4294967296 = epoch := by omega
    rw [h2]
    have h3 : year ⊔ latest = latest := by omega
    rw [h3]
  | succ fuel ih =>
    intro year epoch latest h hU
    by_cases hc : 0 < year - latest
    · rw [epochYearLoop, if_pos hc]
      have hU' : w32 (epoch + 86400 * 365) < 4294967296 := by
        simp only [w32, U32_eq]
        omega
      rw [ih year _ (latest + 1) (by omega) hU']
      simp only [w32, U32_eq]
      refine Prod.ext ?_ ?_ <;> simp <;> omega
    · rw [epochYearLoop, if_neg hc]
      have h1 : year - latest = 0 := by omega
      rw [h1]
      have h2 : (epoch + 0 * 31536000) % 4294967296 = epoch := by omega
      rw [h2]
      have h3 : year ⊔ latest = latest := by omega
      rw [h3]

/-- After the two loops of rtc_epoch: the accumulated epoch is the cycle
    start plus the whole non-leap years, and latest_year has reached tm_year. -/
theorem repoch_epoch2_eq (t : tm) (h : 1973 ≤ t.tm_year) :
    repoch_epoch2 t =
      (94694400 + (t.tm_year - 1973) / 4 * 126230400 +
        (t.tm_year - 1973) % 4 * 31536000) % 4294967296 := by
  have hc : repoch_r1 t =
      ((94694400 + (t.tm_year - 1973) / 4 * 126230400) % 4294967296,
       1973 + 4 * ((t.tm_year - 1973) / 4)) := by
    rw [repoch_r1, EPOCH_eq, epochCycleLoop_eq _ _ _ _ (by omega) (by omega)]
  rw [repoch_epoch2, repoch_epoch1, repoch_latest_year, hc,
    epochYearLoop_eq _ _ _ _ (by omega) (by omega)]
  simp only []
  omega

/-- latest_year after the cycle loop, and the is_leap flag: the target year is
    the cycle's leap year exactly when (tm_year - 1973) % 4 = 3. -/
theorem repoch_is_leap_eq (t : tm) (h : 1973 ≤ t.tm_year) :
    repoch_is_leap t = if 2 < (t.tm_year - 1973) % 4 then 1 else 0 := by
  have hc : repoch_r1 t =
      ((94694400 + (t.tm_year - 1973) / 4 * 126230400) % 4294967296,
       1973 + 4 * ((t.tm_year - 1973) / 4)) := by
    rw [repoch_r1, EPOCH_eq, epochCycleLoop_eq _ _ _ _ (by omega) (by omega)]
  rw [repoch_is_leap, repoch_latest_year, hc]
  have h2 : t.tm_year - (1973 + 4 * ((t.tm_year - 1973) / 4)) = (t.tm_year - 1973) % 4 := by
    omega
  rw [h2]

/-- rtc_calculate_yday only reads tm_mon and tm_mday. -/
theorem rtc_calculate_yday_congr (t1 t2 : tm) (ep1 ep2 il : Nat)
    (hmon : t1.tm_mon = t2.tm_mon) (hmday : t1.tm_mday = t2.tm_mday) :
    rtc_calculate_yday t1 ep1 il = rtc_calculate_yday t2 ep2 il := by
  unfold rtc_calculate_yday
  rw [hmon, hmday]

/-- What rtc_epoch leaves in the struct: only tm_yday changes, to eYdayOut. -/
theorem repoch_tb2_eq (t : tm) (h : 1973 ≤ t.tm_year) :
    repoch_tb2 t = { t with tm_yday := eYdayOut t } := by
  unfold repoch_tb2 repoch_tb1 eYdayOut
  by_cases h1 : 366 < t.tm_yday
  · rw [if_pos h1, if_pos (Or.inl h1)]
    simp only []
    by_cases h2 : 0 < t.tm_mday ∨ 0 < t.tm_mon
    · rw [if_pos (by simpa using h2), if_pos (by simpa using h2)]
      have : rtc_calculate_yday { t with tm_yday := 0 } (repoch_epoch2 t) (repoch_is_leap t) =
          rtc_calculate_yday t 0 (if 2 < (t.tm_year - 1973) % 4 then 1 else 0) := by
        rw [repoch_is_leap_eq t h]
        exact rtc_calculate_yday_congr _ _ _ _ _ rfl rfl
      rw [this]
    · rw [if_neg (by simpa using h2), if_neg (by simpa using h2)]
  · rw [if_neg h1]
    by_cases h0 : t.tm_yday = 0
    · rw [if_pos (Or.inr h0)]
      simp only [h0, true_and]
      by_cases h2 : 0 < t.tm_mday ∨ 0 < t.tm_mon
      · rw [if_pos h2, if_pos h2]
        rw [repoch_is_leap_eq t h]
        have : rtc_calculate_yday t (repoch_epoch2 t)
              (if 2 < (t.tm_year - 1973) % 4 then 1 else 0) =
            rtc_calculate_yday t 0 (if 2 < (t.tm_year - 1973) % 4 then 1 else 0) :=
          rtc_calculate_yday_congr _ _ _ _ _ rfl rfl
        rw [this]
      · rw [if_neg h2, if_neg h2]
        rw [show ({ t with tm_yday := 0 } : tm) = t from by
          cases t
          simp_all]
    · rw [if_neg (by simp [h1, h0]), if_neg (by simp [h0]; omega)]

/-- Characterization of rtc_epoch for a supported year: the returned epoch is
    the cycle/year/day/time sum mod 2^32, and the input struct is returned
    with only tm_yday (possibly) rewritten. -/
theorem rtc_epoch_eq (t : tm) (h : 1973 ≤ t.tm_year) :
    rtc_epoch (some t) =
      ((94694400 + (t.tm_year - 1973) / 4 * 126230400 + (t.tm_year - 1973) % 4 * 31536000 +
          eYdayOut t * 86400 + t.tm_hour * 3600 + t.tm_min * 60 + t.tm_sec) % 4294967296,
       some { t with tm_yday := eYdayOut t }) := by
  simp only [rtc_epoch]
  rw [if_neg (by omega), repoch_tb2_eq t h, repoch_epoch2_eq t h]
  simp only [w32, U32_eq]
  refine Prod.ext ?_ rfl
  simp only []
  omega

theorem interp_remains_years_mul_le (L : tm_leapyear) (h : L.remains < 126230400) :
    interp_remains_years L * 31536000 ≤ L.remains := by
  obtain ⟨hl, hnl⟩ := interp_remains_years_leap L h
  by_cases h2 : 2 < interp_remains_years0 L
  · rw [hl h2]
    unfold interp_remains_years0 at h2
    omega
  · rw [hnl h2]
    unfold interp_remains_years0
    omega

/-- When tm_yday is 0, the month walk stops in January with tm_mday = 1. -/
theorem interp_at_yday0 (L : tm_leapyear) (h0 : interp_tm_yday L = 0) :
    interp_tm_mon L = 0 ∧ interp_tm_mday L = 1 := by
  have hw : interp_walk L = (1, 31) := by
    rw [interp_walk, h0, Nat.cast_zero, monthLoop_at_zero]
  have hmon : interp_tm_mon L = 0 := by
    rw [interp_tm_mon, hw]
    rfl
  refine ⟨hmon, ?_⟩
  have hj : interp_j L = 0 := by
    rw [interp_j, hw, hmon]
    norm_num [monthInfo_days]
  rw [interp_tm_mday, hj]
  rw [interp_tm_yday] at h0
  simp only [Int.toNat_zero, Nat.zero_mul, Nat.sub_zero, h0]

/-- rtc_epoch does not rewrite the tm_yday produced by rtc_interpret: when it
    is nonzero it is kept, and when it is 0 the recomputation from
    month = 0 / day = 1 returns 0 again. -/
theorem eYdayOut_interp (e : Nat) (h : 94694400 ≤ e) :
    eYdayOut ⟨interp_tm_sec (interp_leaps e), interp_tm_min (interp_leaps e),
      interp_tm_hour (interp_leaps e), interp_tm_mday (interp_leaps e),
      interp_tm_mon (interp_leaps e), interp_tm_year (interp_leaps e),
      interp_tm_wday e, interp_tm_yday (interp_leaps e)⟩ =
      interp_tm_yday (interp_leaps e) := by
  have hrem : (interp_leaps e).remains < 126230400 := by
    rw [interp_leaps_remains]
    omega
  have hle := (interp_tm_yday_le (interp_leaps e) hrem).1
  unfold eYdayOut
  dsimp only
  by_cases h0 : interp_tm_yday (interp_leaps e) = 0
  · rw [if_pos (Or.inr h0)]
    obtain ⟨hmon, hmday⟩ := interp_at_yday0 (interp_leaps e) h0
    rw [if_pos (Or.inl (by rw [hmday]; omega))]
    unfold rtc_calculate_yday
    dsimp only
    rw [hmon, hmday, h0]
    simp [ydaySum]
  · rw [if_neg (by omega)]

/-- Claim C1: for every epoch e with EPOCH_AFTER_FIRST_LEAPYEAR ≤ e < 2^32
    (so that no intermediate 32-bit sum wraps), rtc_epoch inverts
    rtc_interpret exactly. -/
theorem claim_C1_roundtrip (e : Nat) (h1 : EPOCH_AFTER_FIRST_LEAPYEAR ≤ e)
    (h2 : e < 4294967296) : (rtc_epoch (rtc_interpret e)).1 = e := by
  have h : 94694400 ≤ e := by rw [EPOCH_eq] at h1; exact h1
  rw [rtc_interpret_eq_some e h]
  have hrem : (interp_leaps e).remains < 126230400 := by
    rw [interp_leaps_remains]
    omega
  have hY : interp_tm_year (interp_leaps e) =
      (interp_leaps e).years + interp_remains_years (interp_leaps e) + 1970 := rfl
  have hYrs := interp_leaps_years e
  have hRY := interp_remains_years_le (interp_leaps e) hrem
  have hyear : 1973 ≤ interp_tm_year (interp_leaps e) := by omega
  rw [rtc_epoch_eq _ hyear]
  dsimp only
  rw [eYdayOut_interp e h]
  have hdiv : (interp_tm_year (interp_leaps e) - 1973) / 4 = (e - 94694400) / 126230400 := by
    omega
  have hmod : (interp_tm_year (interp_leaps e) - 1973) % 4 =
      interp_remains_years (interp_leaps e) := by
    omega
  rw [hdiv, hmod]
  have hRTY := interp_remains_this_year_eq (interp_leaps e) hrem
  have hmul := interp_remains_years_mul_le (interp_leaps e) hrem
  have hREM := interp_leaps_remains e
  have htod := interp_time_of_day (interp_leaps e)
  have hsplit := interp_yday_split (interp_leaps e)
  omega

theorem claim_C1_witness :
    EPOCH_AFTER_FIRST_LEAPYEAR ≤ 194400000 ∧ 194400000 < 4294967296 ∧
    (rtc_epoch (rtc_interpret 194400000)).1 = 194400000 :=
  ⟨by decide, by decide, claim_C1_roundtrip 194400000 (by decide) (by decide)⟩

/-- Claim C2: every epoch below EPOCH_AFTER_FIRST_LEAPYEAR (any instant in
    1970-1972) makes rtc_interpret return NULL, never a populated struct. -/
theorem claim_C2_unsupported_returns_none (e : Nat) (h : e < EPOCH_AFTER_FIRST_LEAPYEAR) :
    rtc_interpret e = none := by
  unfold rtc_interpret rtc_calculate_last_leapyear
  rw [if_pos h]

theorem claim_C2_witness :
    94694399 < EPOCH_AFTER_FIRST_LEAPYEAR ∧ rtc_interpret 94694399 = none :=
  ⟨by decide, claim_C2_unsupported_returns_none 94694399 (by decide)⟩

/-- Claim C5: 194400000 is the epoch of 1976-02-29T00:00:00Z (2250 days after
    1970-01-01) and rtc_interpret places it at month 1 (February, 0-indexed),
    day 29; 226022400 is the epoch of 1977-03-01T00:00:00Z (2616 days) and
    rtc_interpret places it at month 2 (March), day 1 — 1977 has no Feb 29. -/
theorem claim_C5_leap_day :
    (rtc_interpret 194400000).map tm.tm_mon = some 1 ∧
    (rtc_interpret 194400000).map tm.tm_mday = some 29 ∧
    (rtc_interpret 226022400).map tm.tm_mon = some 2 ∧
    (rtc_interpret 226022400).map tm.tm_mday = some 1 := by decide

/-- Claim C6 (counterexample to the claim as stated): rtc_interpret rejects
    the epochs 0 (1970-01-01) and 86400 (1970-01-02) outright — it returns
    NULL rather than any struct carrying a weekday. -/
theorem claim_C6_counterexample :
    rtc_interpret 0 = none ∧ rtc_interpret 86400 = none := by decide

/-- Claim C6 (amended): rtc_interpret returns NULL at epochs 0 and 86400
    (they precede the supported range); its weekday rule is the pure formula
    (epoch/86400 + 4) mod 7 — 4 encoding that 1970-01-01 was a Thursday, and
    giving Friday (5) one day later — and on every supported epoch the
    returned tm_wday equals that formula, independent of the leap-cycle
    decomposition. -/
theorem claim_C6_weekday_amended :
    rtc_interpret 0 = none ∧ rtc_interpret 86400 = none ∧
    (0 / 86400 + 4) % 7 = 4 ∧ (86400 / 86400 + 4) % 7 = 5 ∧
    (∀ e : Nat, EPOCH_AFTER_FIRST_LEAPYEAR ≤ e →
      ∃ t : tm, rtc_interpret e = some t ∧ t.tm_wday = (e / 86400 + 4) % 7 ∧ t.tm_wday ≤ 6) := by
  refine ⟨by decide, by decide, by decide, by decide, ?_⟩
  intro e he
  have h' : 94694400 ≤ e := by rw [EPOCH_eq] at he; exact he
  refine ⟨_, rtc_interpret_eq_some e h', ?_, ?_⟩
  · exact interp_tm_wday_eq e
  · show interp_tm_wday e ≤ 6
    rw [interp_tm_wday_eq e]
    omega

theorem claim_C6_witness :
    ∃ t : tm, rtc_interpret 94694400 = some t ∧
      t.tm_wday = (94694400 / 86400 + 4) % 7 ∧ t.tm_wday ≤ 6 :=
  claim_C6_weekday_amended.2.2.2.2 94694400 (by decide)

/-- Claim C7: a NULL input, or any input whose year is below 1973, makes
    rtc_epoch return the failure value 0 (and leave the input untouched). -/
theorem claim_C7_year_below_min (t : tm) (h : t.tm_year < 1973) :
    rtc_epoch none = (0, none) ∧ rtc_epoch (some t) = (0, some t) := by
  refine ⟨rfl, ?_⟩
  simp only [rtc_epoch]
  rw [if_pos h]

theorem claim_C7_witness :
    rtc_epoch none = (0, none) ∧
    rtc_epoch (some ⟨0, 0, 0, 1, 0, 1970, 0, 0⟩) = (0, some ⟨0, 0, 0, 1, 0, 1970, 0, 0⟩) :=
  claim_C7_year_below_min ⟨0, 0, 0, 1, 0, 1970, 0, 0⟩ (by decide)

/-- Claim C8: on every supported epoch the struct returned by rtc_interpret
    satisfies the documented field invariant: tm_mon in [0,11]; tm_mday in
    [1,31] and within the month length for the (4-year-cycle) leap status of
    tm_year; tm_yday in [0,365] and equal to the days before tm_mon plus
    tm_mday - 1; tm_hour ≤ 23; tm_min, tm_sec ≤ 59; and tm_wday in [0,6],
    a pure function of the epoch. -/
theorem claim_C8_field_invariants (e : Nat) (h : EPOCH_AFTER_FIRST_LEAPYEAR ≤ e) :
    ∃ t : tm, rtc_interpret e = some t ∧
      t.tm_mon ≤ 11 ∧
      1 ≤ t.tm_mday ∧ t.tm_mday ≤ 31 ∧
      t.tm_mday ≤ daysInMonth (decide (t.tm_year % 4 = 0)) t.tm_mon ∧
      t.tm_yday ≤ 365 ∧
      t.tm_yday = daysBefore (decide (t.tm_year % 4 = 0)) t.tm_mon + (t.tm_mday - 1) ∧
      t.tm_hour ≤ 23 ∧ t.tm_min ≤ 59 ∧ t.tm_sec ≤ 59 ∧
      t.tm_wday ≤ 6 ∧ t.tm_wday = (e / 86400 + 4) % 7 := by
  have h' : 94694400 ≤ e := by rw [EPOCH_eq] at h; exact h
  have hrem : (interp_leaps e).remains < 126230400 := by
    rw [interp_leaps_remains]
    omega
  refine ⟨_, rtc_interpret_eq_some e h', ?_⟩
  dsimp only
  have hmc := interp_month_char (interp_leaps e) hrem
  have hmde := interp_tm_mday_eq (interp_leaps e) hrem
  have hld : decide (interp_tm_year (interp_leaps e) % 4 = 0) = interp_leap (interp_leaps e) := by
    have hY : interp_tm_year (interp_leaps e) =
        (interp_leaps e).years + interp_remains_years (interp_leaps e) + 1970 := rfl
    have hYrs := interp_leaps_years e
    have hlp := interp_remains_years_leap (interp_leaps e) hrem
    have h0 := interp_remains_years0_le (interp_leaps e) hrem
    rw [interp_leap, decide_eq_decide]
    constructor <;> intro hc
    · by_contra hnc
      have := hlp.2 hnc
      omega
    · have := hlp.1 hc
      omega
  rw [hld]
  have hdim31 : daysInMonth (interp_leap (interp_leaps e)) (interp_tm_mon (interp_leaps e)) ≤ 31 := by
    have := daysInMonth_le31 (interp_tm_mon (interp_leaps e)) hmc.1
    cases hb : interp_leap (interp_leaps e) <;> omega
  have htod := interp_time_of_day (interp_leaps e)
  have hydle := (interp_tm_yday_le (interp_leaps e) hrem).1
  refine ⟨hmc.1, by omega, by omega, by omega, hydle, by omega, htod.2.2.1, htod.2.2.2.1,
    htod.2.2.2.2, ?_, interp_tm_wday_eq e⟩
  rw [interp_tm_wday_eq e]
  omega

theorem claim_C8_witness :
    ∃ t : tm, rtc_interpret 94694400 = some t ∧
      t.tm_mon ≤ 11 ∧
      1 ≤ t.tm_mday ∧ t.tm_mday ≤ 31 ∧
      t.tm_mday ≤ daysInMonth (decide (t.tm_year % 4 = 0)) t.tm_mon ∧
      t.tm_yday ≤ 365 ∧
      t.tm_yday = daysBefore (decide (t.tm_year % 4 = 0)) t.tm_mon + (t.tm_mday - 1) ∧
      t.tm_hour ≤ 23 ∧ t.tm_min ≤ 59 ∧ t.tm_sec ≤ 59 ∧
      t.tm_wday ≤ 6 ∧ t.tm_wday = (94694400 / 86400 + 4) % 7 :=
  claim_C8_field_invariants 94694400 (by decide)

/-
  Tick and alarm bookkeeping of RTC_ISR.
-/

theorem or_or_self (a b : Nat) : a ||| b ||| b = a ||| b := by
  rw [Nat.or_assoc, Nat.or_self]

/-- A tick in which neither alarm comparison matches only sets RTC_TICK and
    advances the epoch. -/
theorem RTC_ISR_tick_quiet (s : RtcState)
    (h0 : ¬ (0 < s.rtcalarm0 ∧ w32 (s.rtcepoch + 1) = s.rtcalarm0))
    (h1 : ¬ (0 < s.rtcalarm1 ∧ w32 (s.rtcepoch + 1) = s.rtcalarm1)) :
    (RTC_ISR_tick s).1 =
      { s with rtc_status := s.rtc_status ||| 1, rtcepoch := w32 (s.rtcepoch + 1) } := by
  have c0 : (0 < s.rtcalarm0 ∧ w32 (s.rtcepoch + 1) = s.rtcalarm0) = False := eq_false h0
  have c1 : (0 < s.rtcalarm1 ∧ w32 (s.rtcepoch + 1) = s.rtcalarm1) = False := eq_false h1
  simp only [RTC_ISR_tick, RTC_TICK, c0, c1, false_and, if_false]

/-- A tick in which the alarm-0 comparison matches: RTC_TICK and
    RTCALARM_0_TRIGGERED are set and, with a positive rearm increment,
    rtcalarm0 advances by it. -/
theorem RTC_ISR_tick_fire0 (s : RtcState) (h2 : s.rtcalarm0 = s.rtcepoch + 1)
    (h1 : s.rtcalarm1 = 0) (h3 : s.rtcepoch + 1 < 4294967296) :
    (RTC_ISR_tick s).1 =
      { s with rtc_status := s.rtc_status ||| 1 ||| 2,
               rtcepoch := s.rtcepoch + 1,
               rtcalarm0 := if 0 < s.rtcalarm0_incr then w32 (s.rtcalarm0 + s.rtcalarm0_incr)
                 else s.rtcalarm0 } := by
  have he1 : w32 (s.rtcepoch + 1) = s.rtcepoch + 1 := by
    unfold w32 U32
    omega
  have hf : 0 < s.rtcalarm0 ∧ w32 (s.rtcepoch + 1) = s.rtcalarm0 := by
    rw [he1]
    omega
  have c0 : (0 < s.rtcalarm0 ∧ w32 (s.rtcepoch + 1) = s.rtcalarm0) = True := eq_true hf
  have c0' : (0 < s.rtcalarm0 ∧ s.rtcepoch + 1 = s.rtcalarm0) = True := by
    rw [he1] at c0
    exact c0
  have c1 : (0 < s.rtcalarm1 ∧ w32 (s.rtcepoch + 1) = s.rtcalarm1) = False := by
    rw [he1, h1]
    simp
  have c1' : (0 < s.rtcalarm1 ∧ s.rtcepoch + 1 = s.rtcalarm1) = False := by
    rw [he1] at c1
    exact c1
  simp only [RTC_ISR_tick, RTC_TICK, RTCALARM_0_TRIGGERED, RTCALARM_1_TRIGGERED, c0, c0', c1, c1',
    true_and, false_and, if_true, if_false, he1]

theorem rtc_ticks_add (a b : Nat) : ∀ s : RtcState,
    rtc_ticks (a + b) s = rtc_ticks b (rtc_ticks a s) := by
  induction a with
  | zero =>
    intro s
    rw [Nat.zero_add]
    rfl
  | succ a ih =>
    intro s
    rw [show a + 1 + b = (a + b) + 1 from by omega]
    show rtc_ticks (a + b) (RTC_ISR_tick s).1 = _
    rw [ih]
    rfl

/-- A run of ticks strictly below the alarm-0 target leaves both alarms as
    they are and just advances the epoch (setting RTC_TICK once). -/
theorem rtc_ticks_quiet (k : Nat) : ∀ s : RtcState, s.rtcalarm1 = 0 →
    s.rtcepoch + k < s.rtcalarm0 → s.rtcalarm0 < 4294967296 →
    rtc_ticks k s = { s with
      rtcepoch := s.rtcepoch + k,
      rtc_status := if k = 0 then s.rtc_status else s.rtc_status ||| 1 } := by
  induction k with
  | zero =>
    intro s _ _ _
    show s = _
    simp
  | succ k ih =>
    intro s ha1 hlt hU
    have he1 : w32 (s.rtcepoch + 1) = s.rtcepoch + 1 := by
      unfold w32 U32
      omega
    have hq := RTC_ISR_tick_quiet s (by rw [he1]; omega) (by rw [he1, ha1]; omega)
    show rtc_ticks k (RTC_ISR_tick s).1 = _
    rw [hq, he1]
    have hih := ih ⟨s.rtc_status ||| 1, s.rtcepoch + 1, s.rtcalarm0, s.rtcalarm0_incr,
      s.rtcalarm1, s.rtcalarm1_incr⟩ ha1 (show s.rtcepoch + 1 + k < s.rtcalarm0 by omega) hU
    rw [hih]
    dsimp only
    rw [if_neg (show ¬ k + 1 = 0 by omega)]
    rcases Nat.eq_zero_or_pos k with hk | hk
    · subst hk
      simp
    · rw [if_neg (by omega), or_or_self]
      have : s.rtcepoch + 1 + k = s.rtcepoch + (k + 1) := by omega
      rw [this]

theorem RTC_ISR_tick_epoch (s : RtcState) :
    (RTC_ISR_tick s).1.rtcepoch = (s.rtcepoch + 1) % 4294967296 := by
  simp only [RTC_ISR_tick, w32, U32]

theorem RTC_ISR_tick_bit0 (s : RtcState) :
    Nat.testBit (RTC_ISR_tick s).1.rtc_status 0 = true := by
  simp only [RTC_ISR_tick, RTC_TICK, RTCALARM_0_TRIGGERED, RTCALARM_1_TRIGGERED]
  split <;> split <;> simp [Nat.testBit_or]

theorem rtc_ticks_epoch (n : Nat) : ∀ s : RtcState, s.rtcepoch < 4294967296 →
    (rtc_ticks n s).rtcepoch = (s.rtcepoch + n) % 4294967296 := by
  induction n with
  | zero =>
    intro s h
    show s.rtcepoch = _
    omega
  | succ n ih =>
    intro s h
    have he := RTC_ISR_tick_epoch s
    show (rtc_ticks n (RTC_ISR_tick s).1).rtcepoch = _
    rw [ih _ (by rw [he]; omega), he]
    omega

theorem rtc_ticks_bit0 (n : Nat) : ∀ s : RtcState,
    Nat.testBit (rtc_ticks (n + 1) s).rtc_status 0 = true := by
  induction n with
  | zero =>
    intro s
    exact RTC_ISR_tick_bit0 s
  | succ n ih =>
    intro s
    show Nat.testBit (rtc_ticks (n + 1) (RTC_ISR_tick s).1).rtc_status 0 = true
    exact ih (RTC_ISR_tick s).1

/-- Claim C3 (counterexample to the claim as stated): with the live epoch at
    2^32 - 1, a single tick wraps the 32-bit counter to 0, not to e0 + 1. -/
theorem claim_C3_counterexample :
    (rtc_ticks 1 ⟨0, 4294967295, 0, 0, 0, 0⟩).rtcepoch = 0 ∧
    (rtc_ticks 1 ⟨0, 4294967295, 0, 0, 0, 0⟩).rtcepoch ≠ 4294967295 + 1 := by decide

/-- Claim C3 (amended): each tick sets the RTC_TICK status bit and increments
    the live epoch by exactly 1 modulo 2^32; consequently, from any state
    whose epoch is a valid 32-bit value, after n ticks the live epoch is
    (e0 + n) mod 2^32 (hence e0 + n whenever that does not overflow), and
    after one or more ticks RTC_TICK is set. -/
theorem claim_C3_tick_increment :
    (∀ s : RtcState, (RTC_ISR_tick s).1.rtcepoch = (s.rtcepoch + 1) % 4294967296 ∧
      Nat.testBit (RTC_ISR_tick s).1.rtc_status 0 = true) ∧
    (∀ (s : RtcState) (n : Nat), s.rtcepoch < 4294967296 →
      (rtc_ticks n s).rtcepoch = (s.rtcepoch + n) % 4294967296) ∧
    (∀ (s : RtcState) (n : Nat), Nat.testBit (rtc_ticks (n + 1) s).rtc_status 0 = true) :=
  ⟨fun s => ⟨RTC_ISR_tick_epoch s, RTC_ISR_tick_bit0 s⟩,
   fun s n h => rtc_ticks_epoch n s h,
   fun s n => rtc_ticks_bit0 n s⟩

theorem claim_C3_witness :
    (rtc_ticks 7 ⟨0, 1000, 0, 0, 0, 0⟩).rtcepoch = (1000 + 7) % 4294967296 ∧
    Nat.testBit (rtc_ticks 7 ⟨0, 1000, 0, 0, 0, 0⟩).rtc_status 0 = true :=
  ⟨claim_C3_tick_increment.2.1 ⟨0, 1000, 0, 0, 0, 0⟩ 7 (by decide),
   claim_C3_tick_increment.2.2 ⟨0, 1000, 0, 0, 0, 0⟩ 6⟩

theorem or12 (a : Nat) : a ||| 1 ||| 2 = a ||| 3 := by
  rw [Nat.or_assoc, show (1 : Nat) ||| 2 = 3 by decide]

theorem or31 (a : Nat) : a ||| 3 ||| 1 = a ||| 3 := by
  rw [Nat.or_assoc, show (3 : Nat) ||| 1 = 3 by decide]

theorem or32 (a : Nat) : a ||| 3 ||| 2 = a ||| 3 := by
  rw [Nat.or_assoc, show (3 : Nat) ||| 2 = 3 by decide]

/-- Claim C4: with alarm 0 configured at target e0+10 and rearm increment 5
    while the live epoch is e0 (alarm 1 disabled, ALARM0 flag initially
    clear, no 32-bit overflow in the scenario): ticks 1..9 leave the target
    at e0+10, the flag clear, and trigger no alarm; the 10th tick fires the
    alarm, sets the flag and advances the target to e0+15; ticks 11..14
    leave the target at e0+15 and fire nothing; the 15th tick fires again
    and the target becomes e0+20. -/
theorem claim_C4_alarm0_schedule (e0 st0 : Nat) (hU : e0 + 20 < 4294967296)
    (hb : Nat.testBit st0 1 = false) :
    (∀ k : Nat, 1 ≤ k → k ≤ 9 →
      (rtc_ticks k ⟨st0, e0, e0 + 10, 5, 0, 0⟩).rtcalarm0 = e0 + 10 ∧
      Nat.testBit (rtc_ticks k ⟨st0, e0, e0 + 10, 5, 0, 0⟩).rtc_status 1 = false ∧
      ¬ rtc_alarm0_fires (rtc_ticks (k - 1) ⟨st0, e0, e0 + 10, 5, 0, 0⟩)) ∧
    (rtc_alarm0_fires (rtc_ticks 9 ⟨st0, e0, e0 + 10, 5, 0, 0⟩) ∧
     Nat.testBit (rtc_ticks 10 ⟨st0, e0, e0 + 10, 5, 0, 0⟩).rtc_status 1 = true ∧
     (rtc_ticks 10 ⟨st0, e0, e0 + 10, 5, 0, 0⟩).rtcalarm0 = e0 + 15) ∧
    (∀ k : Nat, 11 ≤ k → k ≤ 14 →
      (rtc_ticks k ⟨st0, e0, e0 + 10, 5, 0, 0⟩).rtcalarm0 = e0 + 15 ∧
      ¬ rtc_alarm0_fires (rtc_ticks (k - 1) ⟨st0, e0, e0 + 10, 5, 0, 0⟩)) ∧
    (rtc_alarm0_fires (rtc_ticks 14 ⟨st0, e0, e0 + 10, 5, 0, 0⟩) ∧
     (rtc_ticks 15 ⟨st0, e0, e0 + 10, 5, 0, 0⟩).rtcalarm0 = e0 + 20) := by
  have hquiet : ∀ k : Nat, k ≤ 9 → rtc_ticks k ⟨st0, e0, e0 + 10, 5, 0, 0⟩ =
      ⟨if k = 0 then st0 else st0 ||| 1, e0 + k, e0 + 10, 5, 0, 0⟩ := by
    intro k hk
    rw [rtc_ticks_quiet k ⟨st0, e0, e0 + 10, 5, 0, 0⟩ rfl
      (show e0 + k < e0 + 10 by omega) (show e0 + 10 < 4294967296 by omega)]
  have hs10 : rtc_ticks 10 ⟨st0, e0, e0 + 10, 5, 0, 0⟩ =
      ⟨st0 ||| 3, e0 + 10, e0 + 15, 5, 0, 0⟩ := by
    rw [show (10 : Nat) = 9 + 1 from rfl, rtc_ticks_add 9 1, hquiet 9 (by omega)]
    show (RTC_ISR_tick _).1 = _
    rw [RTC_ISR_tick_fire0 ⟨if 9 = 0 then st0 else st0 ||| 1, e0 + 9, e0 + 10, 5, 0, 0⟩
      (show e0 + 10 = e0 + 9 + 1 by omega) rfl (show e0 + 9 + 1 < 4294967296 by omega)]
    have hw : w32 (e0 + 10 + 5) = e0 + 15 := by
      unfold w32 U32
      omega
    dsimp only
    rw [if_neg (show ¬ (9 : Nat) = 0 by omega), if_pos (show (0 : Nat) < 5 by omega), hw,
      or_or_self, or12]
  have hs10m : ∀ m : Nat, m ≤ 4 → rtc_ticks (10 + m) ⟨st0, e0, e0 + 10, 5, 0, 0⟩ =
      ⟨st0 ||| 3, e0 + 10 + m, e0 + 15, 5, 0, 0⟩ := by
    intro m hm
    rw [rtc_ticks_add 10 m, hs10, rtc_ticks_quiet m ⟨st0 ||| 3, e0 + 10, e0 + 15, 5, 0, 0⟩ rfl
      (show e0 + 10 + m < e0 + 15 by omega) (show e0 + 15 < 4294967296 by omega)]
    dsimp only
    rcases Nat.eq_zero_or_pos m with rfl | hmpos
    · norm_num
    · rw [if_neg (by omega), or31]
  have hs15 : rtc_ticks 15 ⟨st0, e0, e0 + 10, 5, 0, 0⟩ =
      ⟨st0 ||| 3, e0 + 15, e0 + 20, 5, 0, 0⟩ := by
    rw [show (15 : Nat) = 14 + 1 from rfl, rtc_ticks_add 14 1,
      show (14 : Nat) = 10 + 4 from rfl, hs10m 4 (by omega)]
    show (RTC_ISR_tick _).1 = _
    rw [RTC_ISR_tick_fire0 ⟨st0 ||| 3, e0 + 10 + 4, e0 + 15, 5, 0, 0⟩
      (show e0 + 15 = e0 + 10 + 4 + 1 by omega) rfl (show e0 + 10 + 4 + 1 < 4294967296 by omega)]
    have hw : w32 (e0 + 15 + 5) = e0 + 20 := by
      unfold w32 U32
      omega
    dsimp only
    rw [if_pos (show (0 : Nat) < 5 by omega), hw, or31, or32]
  refine ⟨?_, ⟨?_, ?_, ?_⟩, ?_, ?_, ?_⟩
  · intro k h1k h9k
    rw [hquiet k (by omega), hquiet (k - 1) (by omega)]
    refine ⟨rfl, ?_, ?_⟩
    · rw [if_neg (by omega)]
      simp [Nat.testBit_or, hb, show Nat.testBit 1 1 = false from by decide]
    · simp only [rtc_alarm0_fires, w32, U32]
      omega
  · rw [hquiet 9 (by omega)]
    simp only [rtc_alarm0_fires, w32, U32]
    omega
  · rw [hs10]
    simp [Nat.testBit_or, hb, show Nat.testBit 3 1 = true from by decide]
  · rw [hs10]
  · intro k hk11 hk14
    constructor
    · rw [show k = 10 + (k - 10) from by omega, hs10m (k - 10) (by omega)]
    · rw [show k - 1 = 10 + (k - 11) from by omega, hs10m (k - 11) (by omega)]
      simp only [rtc_alarm0_fires, w32, U32]
      omega
  · rw [show (14 : Nat) = 10 + 4 from rfl, hs10m 4 (by omega)]
    simp only [rtc_alarm0_fires, w32, U32]
    omega
  · rw [hs15]

theorem claim_C4_witness :
    (rtc_ticks 10 ⟨0, 100, 110, 5, 0, 0⟩).rtcalarm0 = 100 + 15 ∧
    (rtc_ticks 15 ⟨0, 100, 110, 5, 0, 0⟩).rtcalarm0 = 100 + 20 :=
  ⟨(claim_C4_alarm0_schedule 100 0 (by decide) (by decide)).2.1.2.2,
   (claim_C4_alarm0_schedule 100 0 (by decide) (by decide)).2.2.2.2⟩

/-- Claim C9 (code bug): RTC_ISR executes
    `__bic_SR_register_on_exit(LPM4_bits)` on every tick unconditionally; it
    never consults RTC_TICK_DOES_WAKEUP (bit 0x0100), so a tick with that
    bit clear and no alarm due still wakes the CPU, contradicting the
    header's documentation of RTC_TICK_DOES_WAKEUP. -/
theorem claim_C9_wakeup_ignores_flag :
    (∀ s : RtcState, (RTC_ISR_tick s).2 = true) ∧
    ((RTC_ISR_tick ⟨0, 1000, 0, 0, 0, 0⟩).2 = true ∧
     Nat.testBit (0 : Nat) 8 = false ∧
     Nat.testBit (RTC_ISR_tick ⟨0, 1000, 0, 0, 0, 0⟩).1.rtc_status 1 = false ∧
     Nat.testBit (RTC_ISR_tick ⟨0, 1000, 0, 0, 0, 0⟩).1.rtc_status 2 = false) :=
  ⟨fun _ => rfl, by decide⟩

/-- Claim C10 (counterexample to the claim as stated): an input with
    tm_year = 1970 and tm_yday = 400 fails rtc_epoch's year validation, so
    rtc_epoch returns it untouched even though tm_yday exceeds 366 — the
    claimed overwrite does not happen. -/
theorem claim_C10_counterexample :
    (rtc_epoch (some ⟨0, 0, 0, 1, 0, 1970, 0, 400⟩)).2 = some ⟨0, 0, 0, 1, 0, 1970, 0, 400⟩ ∧
    366 < 400 := by decide

/-- Claim C10 (amended): for inputs that pass rtc_epoch's validation
    (tm_year ≥ 1973), the returned struct differs from the input only in
    tm_yday, which becomes eYdayOut t: when tm_yday exceeds 366 or is 0, it
    is overwritten — with the value recomputed by rtc_calculate_yday from
    month/day when either is nonzero, and with 0 otherwise; when
    1 ≤ tm_yday ≤ 366 it is left unchanged. -/
theorem claim_C10_frame (t : tm) (h : 1973 ≤ t.tm_year) :
    (rtc_epoch (some t)).2 = some { t with tm_yday := eYdayOut t } ∧
    (366 < t.tm_yday ∨ (t.tm_yday = 0 ∧ (0 < t.tm_mday ∨ 0 < t.tm_mon)) →
      eYdayOut t = if 0 < t.tm_mday ∨ 0 < t.tm_mon then
        rtc_calculate_yday t 0 (if 2 < (t.tm_year - 1973) % 4 then 1 else 0) else 0) ∧
    (t.tm_yday ≤ 366 → t.tm_yday ≠ 0 → eYdayOut t = t.tm_yday) := by
  refine ⟨?_, ?_, ?_⟩
  · rw [rtc_epoch_eq t h]
  · intro hc
    unfold eYdayOut
    rcases hc with hc | hc
    · rw [if_pos (Or.inl hc)]
    · rw [if_pos (Or.inr hc.1)]
  · intro hle hne
    unfold eYdayOut
    rw [if_neg (by omega)]

theorem claim_C10_witness :
    (rtc_epoch (some ⟨0, 0, 0, 5, 2, 1975, 0, 0⟩)).2 =
      some { (⟨0, 0, 0, 5, 2, 1975, 0, 0⟩ : tm) with
        tm_yday := eYdayOut ⟨0, 0, 0, 5, 2, 1975, 0, 0⟩ } :=
  (claim_C10_frame ⟨0, 0, 0, 5, 2, 1975, 0, 0⟩ (by decide)).1

end Rtckit
